import Mathlib

/-!
Verification of the brobot-mcp-server process bridge and retry engine.

Shallow embedding of:
  * src/brobot_client/brobot_client/retry.py       (backoff, retry predicate, wrappers)
  * src/brobot_client/brobot_client/exceptions.py  (client error class hierarchy)
  * src/mcp_server/brobot_bridge.py                (CLIConfig, BrobotBridge, _run_command)
  * src/brobot_client/brobot_client/client.py      (BrobotClient.click)

Python floats are modelled as rationals, the external process as a function
from command line and timeout to an outcome, and raised exceptions as
`Except` errors.
-/

/-! ## exceptions.py: the client error class hierarchy -/

/-- Exception classes of src/brobot_client/brobot_client/exceptions.py,
together with Python's built-in `Exception` base class. -/
inductive ExcClass where
  | exception
  | brobotClientError
  | brobotConnectionError
  | brobotTimeoutError
  | brobotActionError
  | brobotValidationError
deriving DecidableEq, Repr

/-- Method resolution order of each class: the class followed by its bases,
exactly as declared in exceptions.py (every Brobot error subclasses
`BrobotClientError`, which subclasses `Exception`). -/
def ExcClass.mro : ExcClass → List ExcClass
  | .exception => [.exception]
  | .brobotClientError => [.brobotClientError, .exception]
  | .brobotConnectionError => [.brobotConnectionError, .brobotClientError, .exception]
  | .brobotTimeoutError => [.brobotTimeoutError, .brobotClientError, .exception]
  | .brobotActionError => [.brobotActionError, .brobotClientError, .exception]
  | .brobotValidationError => [.brobotValidationError, .brobotClientError, .exception]

/-- Python `isinstance(e, target)` on these classes: the target class is
among the ancestors of the instance's class. -/
def isinstanceOf (cls target : ExcClass) : Bool :=
  target ∈ cls.mro

/-! ## retry.py: exponential_backoff, should_retry, retry wrappers -/

/-- `exponential_backoff(attempt, base_delay, max_delay, jitter)` of retry.py.
`r` models the value drawn from `random.random()` (a float in `[0, 1)`),
which the Python code multiplies by 0.5 and adds to 0.5. -/
def exponential_backoff (attempt : Nat) (base_delay max_delay : ℚ)
    (jitter : Bool) (r : ℚ) : ℚ :=
  let delay := min (base_delay * 2 ^ attempt) max_delay
  if jitter then delay * (1/2 + r * (1/2)) else delay

/-- `should_retry(exception)` of retry.py: retry exactly when the exception
is an instance of `BrobotConnectionError` or `BrobotTimeoutError`. -/
def should_retry (e : ExcClass) : Bool :=
  isinstanceOf e .brobotConnectionError || isinstanceOf e .brobotTimeoutError

/-- Observable behaviour of one call of a retry-wrapped operation:
the value returned or exception raised, how many times the wrapped
operation was invoked, and the sleeps performed (in order). A Python
function that falls off the end of its body returns `None`, modelled as
`Except.ok none`. -/
structure RetryTrace (E α : Type) where
  result : Except E (Option α)
  calls : Nat
  delays : List ℚ
deriving Repr

/-- The `for attempt in range(max_attempts)` loop shared by `sync_wrapper`
and `async_wrapper` in retry.py, starting at iteration `attempt` with
`fuel` iterations left to run (the callers keep `attempt + fuel = n`).
`op k` is the outcome of the wrapped operation's `k`-th invocation;
`rand k` is the `random.random()` draw used for the sleep after attempt
`k`.  The default `exceptions=(Exception,)` tuple catches every error, so
every `op` error reaches the handler. -/
def retryLoop (cond : E → Bool) (base_delay max_delay : ℚ) (n : Nat)
    (op : Nat → Except E α) (rand : Nat → ℚ) :
    Nat → Nat → RetryTrace E α
  | 0, _ => { result := .ok none, calls := 0, delays := [] }
  | fuel + 1, attempt =>
    match op attempt with
    | .ok a => { result := .ok (some a), calls := 1, delays := [] }
    | .error e =>
      if cond e = false ∨ attempt = n - 1 then
        { result := .error e, calls := 1, delays := [] }
      else
        let d := exponential_backoff attempt base_delay max_delay true (rand attempt)
        let rest := retryLoop cond base_delay max_delay n op rand fuel (attempt + 1)
        { result := rest.result, calls := rest.calls + 1, delays := d :: rest.delays }

/-- `sync_wrapper` of the `retry` decorator: run the loop for
`max_attempts` iterations from attempt 0. -/
def sync_wrapper (cond : E → Bool) (base_delay max_delay : ℚ)
    (max_attempts : Nat) (op : Nat → Except E α) (rand : Nat → ℚ) :
    RetryTrace E α :=
  retryLoop cond base_delay max_delay max_attempts op rand max_attempts 0

/-- `async_wrapper` of the `retry` decorator: identical decision logic,
only the suspension primitive differs (`asyncio.sleep` instead of
`time.sleep`), which the trace records identically. -/
def async_wrapper (cond : E → Bool) (base_delay max_delay : ℚ)
    (max_attempts : Nat) (op : Nat → Except E α) (rand : Nat → ℚ) :
    RetryTrace E α :=
  retryLoop cond base_delay max_delay max_attempts op rand max_attempts 0

/-! ## brobot_bridge.py: CLIConfig, BrobotBridge and its operations -/

/-- Exception `BrobotCLIError` of brobot_bridge.py, carrying its message. -/
structure BrobotCLIError where
  msg : String
deriving DecidableEq, Repr

/-- Fields of the `CLIConfig` dataclass (defaults: `java_executable="java"`,
`default_timeout=30.0`). -/
structure CLIConfig where
  jar_path : String
  java_executable : String
  default_timeout : ℚ
deriving DecidableEq, Repr

/-- `CLIConfig.__post_init__`: construction fails with `FileNotFoundError`
unless the jar path exists.  The filesystem is modelled by the list `fs`
of existing paths; a Python dataclass always runs `__post_init__`, so this
is the only way a `CLIConfig` comes into being. -/
def CLIConfig.post_init (fs : List String) (c : CLIConfig) :
    Except String CLIConfig :=
  if c.jar_path ∈ fs then .ok c
  else .error ("Brobot CLI JAR not found at: " ++ c.jar_path)

/-- Outcome of one `subprocess.run` call: normal completion with exit code,
stdout and stderr; `subprocess.TimeoutExpired`; or any other exception
(executable missing, spawn failure) with its message. -/
inductive ProcOutcome where
  | completed (returncode : ℤ) (stdout stderr : String)
  | timedOut
  | raised (msg : String)
deriving DecidableEq, Repr

/-- The external world of the bridge: what `subprocess.run(cmd, ...,
timeout=t)` does for a given command line and timeout. -/
def ProcEnv : Type := List String → ℚ → ProcOutcome

/-- The `result` dictionary `_run_command` returns: keys `success`,
`output`, `error`. -/
structure CommandResult where
  success : Bool
  output : String
  error : Option String
deriving DecidableEq, Repr

/-- Command line built by `_run_command`:
`[java_executable, "-jar", jar_path] + args`. -/
def buildCmd (cfg : CLIConfig) (args : List String) : List String :=
  [cfg.java_executable, "-jar", cfg.jar_path] ++ args

/-- Timeout resolution at the top of `_run_command`:
`if timeout is None: timeout = self.config.default_timeout`. -/
def runCommandTimeout (timeout : Option ℚ) (cfg : CLIConfig) : ℚ :=
  timeout.getD cfg.default_timeout

/-- `BrobotBridge._run_command(args, timeout)`.  Exit code 0 yields
`success=True, output=stdout, error=None`; a non-zero exit yields
`success=False, output=stdout, error = stderr or "Command failed with
code {returncode}"` (Python's `or` replaces an empty stderr).  A timeout
or any other `subprocess.run` failure raises `BrobotCLIError`. -/
def run_command (proc : ProcEnv) (cfg : CLIConfig) (args : List String)
    (timeout : Option ℚ) : Except BrobotCLIError CommandResult :=
  let t := runCommandTimeout timeout cfg
  match proc (buildCmd cfg args) t with
  | .completed rc out err =>
    if rc = 0 then
      .ok { success := true, output := out, error := none }
    else
      .ok { success := false, output := out,
            error := some (if err = "" then "Command failed with code " ++ toString rc else err) }
  | .timedOut => .error ⟨"Command timed out after " ++ toString t.num ++ " seconds"⟩
  | .raised m => .error ⟨"Failed to run command: " ++ m⟩

/-- Render of `result['error']` inside an f-string (`None` when absent). -/
def optErrText : Option String → String
  | some s => s
  | none => "None"

/-- String values of the `BrobotCommand` enum. -/
def GET_STATE_STRUCTURE : String := "get-state-structure"

/-- String value of `BrobotCommand.GET_OBSERVATION`. -/
def GET_OBSERVATION : String := "get-observation"

/-- String value of `BrobotCommand.EXECUTE_ACTION`. -/
def EXECUTE_ACTION : String := "execute-action"

/-- `BrobotBridge.get_state_structure()`.  `parse` models `json.loads`:
`Except.error e` is a `json.JSONDecodeError` with message `e`. -/
def get_state_structure (parse : String → Except String D) (proc : ProcEnv)
    (cfg : CLIConfig) : Except BrobotCLIError D :=
  match run_command proc cfg [GET_STATE_STRUCTURE] none with
  | .error e => .error e
  | .ok r =>
    if r.success = false then
      .error ⟨"Failed to get state structure: " ++ optErrText r.error⟩
    else
      match parse r.output with
      | .ok d => .ok d
      | .error e => .error ⟨"Invalid JSON response from CLI: " ++ e⟩

/-- `BrobotBridge.get_observation()`: same shape as `get_state_structure`
with a different command argument and message. -/
def get_observation (parse : String → Except String D) (proc : ProcEnv)
    (cfg : CLIConfig) : Except BrobotCLIError D :=
  match run_command proc cfg [GET_OBSERVATION] none with
  | .error e => .error e
  | .ok r =>
    if r.success = false then
      .error ⟨"Failed to get observation: " ++ optErrText r.error⟩
    else
      match parse r.output with
      | .ok d => .ok d
      | .error e => .error ⟨"Invalid JSON response from CLI: " ++ e⟩

/-- The `action_request` dictionary as `execute_action` reads it:
`payload` stands for `json.dumps(action_request)`, and `timeout` for the
`"timeout"` entry — `none` when the key is absent, `some none` when it is
present with value `None`, `some (some q)` when present with a number. -/
structure ActionRequest where
  payload : String
  timeout : Option (Option ℚ)
deriving DecidableEq, Repr

/-- `action_request.get("timeout", self.config.default_timeout)`: the
stored value when the key is present (possibly `None`), otherwise the
configured default. -/
def requestGetTimeout (req : ActionRequest) (cfg : CLIConfig) : Option ℚ :=
  match req.timeout with
  | some v => v
  | none => some cfg.default_timeout

/-- The timeout `execute_action` hands to `subprocess.run`: the `.get`
result, with a `None` value replaced by the default inside
`_run_command`. -/
def executeActionUsedTimeout (req : ActionRequest) (cfg : CLIConfig) : ℚ :=
  runCommandTimeout (requestGetTimeout req cfg) cfg

/-- `BrobotBridge.execute_action(action_request)`. -/
def execute_action (parse : String → Except String D) (proc : ProcEnv)
    (cfg : CLIConfig) (req : ActionRequest) : Except BrobotCLIError D :=
  match run_command proc cfg [EXECUTE_ACTION, req.payload] (requestGetTimeout req cfg) with
  | .error e => .error e
  | .ok r =>
    if r.success = false then
      .error ⟨"Failed to execute action: " ++ optErrText r.error⟩
    else
      match parse r.output with
      | .ok d => .ok d
      | .error e => .error ⟨"Invalid JSON response from CLI: " ++ e⟩

/-- A constructed `BrobotBridge` (it holds only its config). -/
structure BrobotBridge where
  config : CLIConfig
deriving DecidableEq, Repr

/-- `BrobotBridge.__init__` with `_validate_cli`: runs `--version` under a
5-second timeout and wraps any raised error in `BrobotCLIError`; note a
non-zero exit still returns a dictionary, so only a raised invocation
error fails validation. -/
def BrobotBridge.init (proc : ProcEnv) (cfg : CLIConfig) :
    Except String BrobotBridge :=
  match run_command proc cfg ["--version"] (some 5) with
  | .ok _ => .ok { config := cfg }
  | .error e => .error ("Failed to validate Brobot CLI: " ++ e.msg)

/-- `initialize_bridge(jar_path, java_executable)`: builds a `CLIConfig`
(running `__post_init__` against the filesystem `fs`) and then a
`BrobotBridge` from it. -/
def initialize_bridge (fs : List String) (proc : ProcEnv)
    (jar_path java_executable : String) : Except String BrobotBridge :=
  match CLIConfig.post_init fs
      { jar_path := jar_path, java_executable := java_executable, default_timeout := 30 } with
  | .error m => .error m
  | .ok cfg => BrobotBridge.init proc cfg

/-! ## client.py: BrobotClient.click -/

/-- The `Location` model (x/y coordinates), as used by `click`. -/
structure Location where
  x : ℤ
  y : ℤ
deriving DecidableEq, Repr

/-- The `parameters` dictionary `click` builds for `execute_action`:
either `image_pattern` plus `confidence`, or `location`. -/
structure ClickParams where
  image_pattern : Option String
  confidence : Option ℚ
  location : Option Location
deriving DecidableEq, Repr

/-- What a call to `click` does before any network traffic: either it
builds the `("click", parameters, timeout)` request it forwards to
`execute_action`, or it raises `ValueError`. -/
inductive ClickOutcome where
  | request (parameters : ClickParams) (timeout : Option ℚ)
  | valueError (msg : String)
deriving DecidableEq, Repr

/-- Python truthiness of the `image_pattern: Optional[str]` argument:
`None` and the empty string are falsy. -/
def strTruthy : Option String → Bool
  | some s => s ≠ ""
  | none => false

/-- Python truthiness of the `location: Optional[Location]` argument:
a dataclass instance without `__bool__`/`__len__` is always truthy. -/
def locTruthy : Option Location → Bool
  | some _ => true
  | none => false

/-- `BrobotClient.click(image_pattern, location, confidence, timeout)`:
the `if image_pattern: ... elif location: ... else: raise ValueError`
request-building prelude, stopping at the `execute_action` call. -/
def click (image_pattern : Option String) (location : Option Location)
    (confidence : ℚ) (timeout : Option ℚ) : ClickOutcome :=
  if strTruthy image_pattern then
    .request { image_pattern := image_pattern, confidence := some confidence,
               location := none } timeout
  else if locTruthy location then
    .request { image_pattern := none, confidence := none,
               location := location } timeout
  else
    .valueError "Either image_pattern or location must be provided"

/-! ## Spec-side definitions used for refinement comparisons -/

/-- The timeout rule as the spec words it for `executeAction`: "uses
`timeoutOverride` if supplied and positive, otherwise the configured
default". -/
def specExecuteActionTimeout (req : ActionRequest) (cfg : CLIConfig) : ℚ :=
  match req.timeout with
  | some (some v) => if 0 < v then v else cfg.default_timeout
  | _ => cfg.default_timeout

/-! ## Claim theorems -/

/-- C5: the default retry predicate `should_retry` returns true exactly for
instances of the connection-error and timeout-error classes, and false for
every other error, in particular validation errors, plain client errors
and action (remote-rejection) errors. -/
theorem C5_default_retry_predicate :
    ∀ e : ExcClass,
      (should_retry e = true ↔
        (e = ExcClass.brobotConnectionError ∨ e = ExcClass.brobotTimeoutError)) ∧
      should_retry ExcClass.brobotValidationError = false ∧
      should_retry ExcClass.brobotActionError = false ∧
      should_retry ExcClass.brobotClientError = false ∧
      should_retry ExcClass.exception = false := by
  intro e
  refine ⟨?_, by decide, by decide, by decide, by decide⟩
  cases e <;> simp [should_retry, isinstanceOf, ExcClass.mro]

/-- C10: with `max_attempts = 0` the wrapped operation is never invoked and
the wrapper returns Python `None` (modelled `Except.ok none`) without
raising, for the sync and async wrappers alike. -/
theorem C10_zero_max_attempts {E α : Type} :
    ∀ (cond : E → Bool) (bd md : ℚ) (op : Nat → Except E α) (rand : Nat → ℚ),
      sync_wrapper cond bd md 0 op rand =
        { result := .ok none, calls := 0, delays := [] } ∧
      async_wrapper cond bd md 0 op rand =
        { result := .ok none, calls := 0, delays := [] } :=
  fun _ _ _ _ _ => ⟨rfl, rfl⟩

/-- C3: with jitter disabled the backoff delay equals
`min(base_delay * 2 ^ attempt, max_delay)` exactly, and with jitter enabled
(random draw `r` in `[0, 1)`) it lies within `[1/2, 1]` of that value. -/
theorem C3_backoff_bounds :
    ∀ (k : Nat) (b m r : ℚ), 0 < b → b ≤ m → 0 ≤ r → r < 1 →
      exponential_backoff k b m false r = min (b * 2 ^ k) m ∧
      (1/2) * min (b * 2 ^ k) m ≤ exponential_backoff k b m true r ∧
      exponential_backoff k b m true r ≤ min (b * 2 ^ k) m := by
  intro k b m r hb hm hr0 hr1
  have hmin : 0 ≤ min (b * 2 ^ k) m := le_min (by positivity) (by linarith)
  refine ⟨rfl, ?_, ?_⟩
  · show (1/2) * min (b * 2 ^ k) m ≤ min (b * 2 ^ k) m * (1/2 + r * (1/2))
    nlinarith [mul_nonneg hmin hr0]
  · show min (b * 2 ^ k) m * (1/2 + r * (1/2)) ≤ min (b * 2 ^ k) m
    nlinarith [mul_nonneg hmin (by linarith : (0:ℚ) ≤ 1 - r)]

/-- Witness for C3 at `attempt = 0`, `base_delay = 1`, `max_delay = 60`,
`r = 0`. -/
theorem C3_backoff_bounds_witness :
    exponential_backoff 0 1 60 false 0 = min ((1:ℚ) * 2 ^ 0) 60 ∧
    (1/2) * min ((1:ℚ) * 2 ^ 0) 60 ≤ exponential_backoff 0 1 60 true 0 ∧
    exponential_backoff 0 1 60 true 0 ≤ min ((1:ℚ) * 2 ^ 0) 60 :=
  C3_backoff_bounds 0 1 60 0 (by norm_num) (by norm_num) (by norm_num) (by norm_num)

/-- C1 counterexample: a caller-supplied non-positive timeout (here `-1`)
is passed through to the process invocation unchanged, where the claim
(following the spec's "supplied and positive" rule) requires the
configured default `30`. -/
theorem C1_counterexample :
    executeActionUsedTimeout { payload := "p", timeout := some (some (-1)) }
        { jar_path := "brobot-cli.jar", java_executable := "java", default_timeout := 30 } = -1 ∧
    specExecuteActionTimeout { payload := "p", timeout := some (some (-1)) }
        { jar_path := "brobot-cli.jar", java_executable := "java", default_timeout := 30 } = 30 ∧
    executeActionUsedTimeout { payload := "p", timeout := some (some (-1)) }
        { jar_path := "brobot-cli.jar", java_executable := "java", default_timeout := 30 } ≠
      specExecuteActionTimeout { payload := "p", timeout := some (some (-1)) }
        { jar_path := "brobot-cli.jar", java_executable := "java", default_timeout := 30 } := by
  refine ⟨rfl, rfl, ?_⟩
  decide

/-- C1 (amended): the timeout handed to the process invocation is the
caller-supplied value whenever the request carries a numeric timeout
(regardless of sign), and the configured default when the key is absent or
`None`; and `execute_action` consults the process environment only at the
execute command line and exactly that timeout. -/
theorem C1_timeout_propagation :
    ∀ (req : ActionRequest) (cfg : CLIConfig),
      executeActionUsedTimeout req cfg =
        (match req.timeout with
         | some (some v) => v
         | _ => cfg.default_timeout) ∧
      ∀ {D : Type} (parse : String → Except String D) (proc₁ proc₂ : ProcEnv),
        proc₁ (buildCmd cfg [EXECUTE_ACTION, req.payload]) (executeActionUsedTimeout req cfg) =
          proc₂ (buildCmd cfg [EXECUTE_ACTION, req.payload]) (executeActionUsedTimeout req cfg) →
        execute_action parse proc₁ cfg req = execute_action parse proc₂ cfg req := by
  intro req cfg
  constructor
  · match hv : req.timeout with
    | some (some v) =>
      simp [executeActionUsedTimeout, requestGetTimeout, runCommandTimeout, hv]
    | some none =>
      simp [executeActionUsedTimeout, requestGetTimeout, runCommandTimeout, hv]
    | none =>
      simp [executeActionUsedTimeout, requestGetTimeout, runCommandTimeout, hv]
  · intro D parse proc₁ proc₂ h
    simp only [executeActionUsedTimeout] at h
    simp only [execute_action, run_command]
    rw [h]

/-- Witness for C1 (amended): a request carrying timeout `1/2` invokes the
process with timeout `1/2`, and two process environments agreeing there
give the same `execute_action` outcome. -/
theorem C1_timeout_propagation_witness :
    executeActionUsedTimeout { payload := "p", timeout := some (some (1/2)) }
        { jar_path := "brobot-cli.jar", java_executable := "java", default_timeout := 30 } = 1/2 ∧
    execute_action (fun s => Except.ok s) (fun _ _ => ProcOutcome.completed 0 "out" "")
        { jar_path := "brobot-cli.jar", java_executable := "java", default_timeout := 30 }
        { payload := "p", timeout := some (some (1/2)) } =
      execute_action (fun s => Except.ok s) (fun _ _ => ProcOutcome.completed 0 "out" "")
        { jar_path := "brobot-cli.jar", java_executable := "java", default_timeout := 30 }
        { payload := "p", timeout := some (some (1/2)) } := by
  constructor
  · exact (C1_timeout_propagation { payload := "p", timeout := some (some (1/2)) }
      { jar_path := "brobot-cli.jar", java_executable := "java", default_timeout := 30 }).1
  · exact (C1_timeout_propagation { payload := "p", timeout := some (some (1/2)) }
      { jar_path := "brobot-cli.jar", java_executable := "java", default_timeout := 30 }).2
      (fun s => Except.ok s) _ _ rfl

/-- C9 counterexample: `click` called with both an image pattern and a
location proceeds by building the pattern-based request; it does not raise
the `ValueError`. -/
theorem C9_counterexample :
    click (some "button.png") (some { x := 10, y := 20 }) (9/10) none =
      ClickOutcome.request
        { image_pattern := some "button.png", confidence := some (9/10), location := none }
        none ∧
    ∀ msg, click (some "button.png") (some { x := 10, y := 20 }) (9/10) none ≠
      ClickOutcome.valueError msg := by
  constructor
  · rfl
  · intro msg h
    simp [click, strTruthy] at h

/-- C9 (amended): `click` is a pure request-builder: with neither argument
it raises `ValueError` before any remote call, with exactly one it builds
the corresponding request, and with both it builds the pattern-based
request (the image pattern takes precedence) rather than failing. -/
theorem C9_click_request_builder :
    ∀ (p : String) (loc : Location) (conf : ℚ) (t : Option ℚ),
      p ≠ "" →
      click (some p) none conf t =
        ClickOutcome.request { image_pattern := some p, confidence := some conf, location := none } t ∧
      click (some p) (some loc) conf t =
        ClickOutcome.request { image_pattern := some p, confidence := some conf, location := none } t ∧
      click none (some loc) conf t =
        ClickOutcome.request { image_pattern := none, confidence := none, location := some loc } t ∧
      click none none conf t =
        ClickOutcome.valueError "Either image_pattern or location must be provided" := by
  intro p loc conf t hp
  refine ⟨?_, ?_, rfl, rfl⟩ <;> simp [click, strTruthy, hp]

/-- Witness for C9 (amended) at a concrete non-empty pattern. -/
theorem C9_click_request_builder_witness :
    click (some "ok.png") none 1 none =
      ClickOutcome.request { image_pattern := some "ok.png", confidence := some 1, location := none } none :=
  (C9_click_request_builder "ok.png" { x := 0, y := 0 } 1 none (by decide)).1

/-- Helper: when every attempt below `n` fails with a retryable error, the
remaining loop (at `attempt` with `fuel` iterations left,
`attempt + fuel = n`) re-raises the final attempt's error, invokes the
operation once per remaining iteration, and sleeps after every iteration
but the last. -/
theorem retryLoop_all_retryable_fail {E α : Type}
    (cond : E → Bool) (bd md : ℚ) (n : Nat) (op : Nat → Except E α)
    (rand : Nat → ℚ) (err : Nat → E)
    (hop : ∀ k, k < n → op k = .error (err k))
    (hcond : ∀ k, k < n → cond (err k) = true) :
    ∀ fuel attempt, attempt + fuel = n → fuel ≠ 0 →
      (retryLoop cond bd md n op rand fuel attempt).result = .error (err (n - 1)) ∧
      (retryLoop cond bd md n op rand fuel attempt).calls = fuel ∧
      (retryLoop cond bd md n op rand fuel attempt).delays.length = fuel - 1 := by
  intro fuel
  induction fuel with
  | zero => intro attempt _ hf; exact absurd rfl hf
  | succ f ih =>
    intro attempt hsum _
    have hlt : attempt < n := by omega
    have hopa := hop attempt hlt
    have hconda := hcond attempt hlt
    by_cases hlast : attempt = n - 1
    · have hf0 : f = 0 := by omega
      subst hf0
      subst hlast
      simp [retryLoop, hopa]
    · have hf : f ≠ 0 := by omega
      have hrec := ih (attempt + 1) (by omega) hf
      have hcnot : ¬(cond (err attempt) = false ∨ attempt = n - 1) := by
        simp [hconda, hlast]
      simp only [retryLoop, hopa, if_neg hcnot]
      refine ⟨hrec.1, ?_, ?_⟩
      · simp [hrec.2.1]
      · simp [hrec.2.2]
        omega

/-- Helper: when attempts below `j` fail with retryable errors and attempt
`j < n` succeeds with `a`, the remaining loop started at `attempt ≤ j`
returns `a`, invoking the operation `j - attempt + 1` times with a sleep
after each failed iteration. -/
theorem retryLoop_fail_then_succeed {E α : Type}
    (cond : E → Bool) (bd md : ℚ) (n : Nat) (op : Nat → Except E α)
    (rand : Nat → ℚ) (err : Nat → E) (j : Nat) (a : α)
    (hop : ∀ k, k < j → op k = .error (err k))
    (hcond : ∀ k, k < j → cond (err k) = true)
    (hj : op j = .ok a) (hjn : j < n) :
    ∀ fuel attempt, attempt + fuel = n → attempt ≤ j →
      (retryLoop cond bd md n op rand fuel attempt).result = .ok (some a) ∧
      (retryLoop cond bd md n op rand fuel attempt).calls = j - attempt + 1 ∧
      (retryLoop cond bd md n op rand fuel attempt).delays.length = j - attempt := by
  intro fuel
  induction fuel with
  | zero => intro attempt hsum hle; omega
  | succ f ih =>
    intro attempt hsum hle
    by_cases hja : attempt = j
    · subst hja
      simp [retryLoop, hj]
    · have hltj : attempt < j := by omega
      have hopa := hop attempt hltj
      have hconda := hcond attempt hltj
      have hlast : attempt ≠ n - 1 := by omega
      have hcnot : ¬(cond (err attempt) = false ∨ attempt = n - 1) := by
        simp [hconda, hlast]
      have hrec := ih (attempt + 1) (by omega) (by omega)
      simp only [retryLoop, hopa, if_neg hcnot]
      refine ⟨hrec.1, ?_, ?_⟩
      · simp [hrec.2.1]
        omega
      · simp [hrec.2.2]
        omega

/-- C2: for `max_attempts = n ≥ 1` and an operation failing retryably on
every attempt, the wrapper invokes the operation exactly `n` times and
re-raises the final attempt's error (async behaving as sync); and in the
three-failures-then-success scenario, `max_attempts = 3` raises the third
error after exactly three invocations while `max_attempts = 4` returns the
fourth attempt's result after exactly four. -/
theorem C2_retry_attempt_exhaustion {E α : Type}
    (cond : E → Bool) (bd md : ℚ) (n : Nat) (op : Nat → Except E α)
    (rand : Nat → ℚ) (err : Nat → E) (a : α) :
    (1 ≤ n → (∀ k, k < n → op k = .error (err k)) → (∀ k, k < n → cond (err k) = true) →
      (sync_wrapper cond bd md n op rand).result = .error (err (n - 1)) ∧
      (sync_wrapper cond bd md n op rand).calls = n ∧
      async_wrapper cond bd md n op rand = sync_wrapper cond bd md n op rand) ∧
    ((∀ k, k < 3 → cond (err k) = true) →
      (sync_wrapper cond bd md 3
          (fun k => if k < 3 then .error (err k) else .ok a) rand).result = .error (err 2) ∧
      (sync_wrapper cond bd md 3
          (fun k => if k < 3 then .error (err k) else .ok a) rand).calls = 3 ∧
      (sync_wrapper cond bd md 4
          (fun k => if k < 3 then .error (err k) else .ok a) rand).result = .ok (some a) ∧
      (sync_wrapper cond bd md 4
          (fun k => if k < 3 then .error (err k) else .ok a) rand).calls = 4) := by
  constructor
  · intro hn hop hcond
    have h := retryLoop_all_retryable_fail cond bd md n op rand err hop hcond n 0
      (by omega) (by omega)
    exact ⟨h.1, h.2.1, rfl⟩
  · intro hcond
    have hop3 : ∀ k, k < 3 →
        (fun k => if k < 3 then Except.error (err k) else Except.ok a) k = .error (err k) := by
      intro k hk
      simp [hk]
    have h3 := retryLoop_all_retryable_fail cond bd md 3
      (fun k => if k < 3 then .error (err k) else .ok a) rand err hop3 hcond 3 0
      (by omega) (by omega)
    have h4 := retryLoop_fail_then_succeed cond bd md 4
      (fun k => if k < 3 then .error (err k) else .ok a) rand err 3 a hop3 hcond
      (by simp) (by omega) 4 0 (by omega) (by omega)
    exact ⟨h3.1, h3.2.1, h4.1, h4.2.1⟩

/-- Witness for C2 with a permanently failing retryable operation at
`max_attempts = 2` and the concrete scenario with success value `7`. -/
theorem C2_retry_attempt_exhaustion_witness :
    (sync_wrapper (fun _ : Unit => true) 1 60 2 (fun _ : Nat => Except.error ())
        (fun _ => 0) : RetryTrace Unit Nat).result = .error () ∧
    (sync_wrapper (fun _ : Unit => true) 1 60 2 (fun _ : Nat => Except.error ())
        (fun _ => 0) : RetryTrace Unit Nat).calls = 2 ∧
    (sync_wrapper (fun _ : Unit => true) 1 60 4
        (fun k => if k < 3 then Except.error () else Except.ok 7) (fun _ => 0)).result =
      .ok (some 7) ∧
    (sync_wrapper (fun _ : Unit => true) 1 60 4
        (fun k => if k < 3 then Except.error () else Except.ok 7) (fun _ => 0)).calls = 4 := by
  have h := C2_retry_attempt_exhaustion (fun _ : Unit => true) 1 60 2
    (fun _ : Nat => Except.error ()) (fun _ => 0) (fun _ => ()) 7
  have h1 := h.1 (by omega) (fun k _ => rfl) (fun k _ => rfl)
  have h2 := h.2 (fun k _ => rfl)
  exact ⟨h1.1, h1.2.1, h2.2.2.1, h2.2.2.2⟩

/-- C4: a first attempt failing with a non-retryable error causes exactly
one invocation, immediate re-raising of that error and no sleep at all;
and a terminally failing run (retryable failures up to the final attempt)
sleeps only after non-final attempts, never before the terminal raise. -/
theorem C4_nonretryable_immediate_raise {E α : Type}
    (cond : E → Bool) (bd md : ℚ) (n : Nat) (op : Nat → Except E α)
    (rand : Nat → ℚ) (e : E) (err : Nat → E) :
    (1 ≤ n → op 0 = .error e → cond e = false →
      sync_wrapper cond bd md n op rand =
        { result := .error e, calls := 1, delays := [] }) ∧
    (1 ≤ n → (∀ k, k < n → op k = .error (err k)) → (∀ k, k < n → cond (err k) = true) →
      (sync_wrapper cond bd md n op rand).delays.length = n - 1) := by
  constructor
  · intro hn hop hcond
    obtain ⟨f, rfl⟩ : ∃ f, n = f + 1 := ⟨n - 1, by omega⟩
    simp [sync_wrapper, retryLoop, hop, hcond]
  · intro hn hop hcond
    exact (retryLoop_all_retryable_fail cond bd md n op rand err hop hcond n 0
      (by omega) (by omega)).2.2

/-- Witness for C4: a non-retryable error with `max_attempts = 3` gives one
call, the error re-raised, no delay; a permanently failing retryable
operation at `max_attempts = 3` sleeps twice. -/
theorem C4_nonretryable_immediate_raise_witness :
    (sync_wrapper (fun _ : Unit => false) 1 60 3 (fun _ : Nat => Except.error ())
        (fun _ => 0) : RetryTrace Unit Nat) =
      { result := .error (), calls := 1, delays := [] } ∧
    (sync_wrapper (fun _ : Unit => true) 1 60 3 (fun _ : Nat => Except.error ())
        (fun _ => 0) : RetryTrace Unit Nat).delays.length = 2 := by
  constructor
  · exact (C4_nonretryable_immediate_raise (fun _ : Unit => false) 1 60 3
      (fun _ : Nat => Except.error ()) (fun _ => 0) () (fun _ => ())).1
      (by omega) rfl rfl
  · exact (C4_nonretryable_immediate_raise (fun _ : Unit => true) 1 60 3
      (fun _ : Nat => Except.error ()) (fun _ => 0) () (fun _ => ())).2
      (by omega) (fun k _ => rfl) (fun k _ => rfl)

/-- C6: a completed process invocation yields a fully populated
`CommandResult`: exit code 0 gives `success=true, output=stdout,
error=None`; a non-zero code gives `success=false, output=stdout`, with
`error` equal to stderr, or a synthesized message naming the exit code
when stderr is empty; and every `success=false` result returned by
`run_command` carries an error message. -/
theorem C6_command_result_population :
    ∀ (cfg : CLIConfig) (args : List String) (tmo : Option ℚ) (rc : ℤ) (out err : String),
      (rc = 0 →
        run_command (fun _ _ => ProcOutcome.completed rc out err) cfg args tmo =
          .ok { success := true, output := out, error := none }) ∧
      (rc ≠ 0 →
        run_command (fun _ _ => ProcOutcome.completed rc out err) cfg args tmo =
          .ok { success := false, output := out,
                error := some (if err = "" then "Command failed with code " ++ toString rc
                               else err) }) ∧
      (∀ (proc : ProcEnv) (r : CommandResult),
        run_command proc cfg args tmo = .ok r → r.success = false →
        ∃ m, r.error = some m) := by
  intro cfg args tmo rc out err
  refine ⟨?_, ?_, ?_⟩
  · intro h
    simp [run_command, h]
  · intro h
    simp [run_command, h]
  · intro proc r hok hfalse
    simp only [run_command] at hok
    split at hok
    · split at hok
      · injection hok with h
        subst h
        simp at hfalse
      · injection hok with h
        subst h
        exact ⟨_, rfl⟩
    · exact Except.noConfusion hok
    · exact Except.noConfusion hok

/-- Witness for C6 at exit codes 0 and 1 (the latter with non-empty and
empty stderr), plus the never-partially-populated conjunct at the failing
result. -/
theorem C6_command_result_population_witness :
    run_command (fun _ _ => ProcOutcome.completed 0 "out" "")
        { jar_path := "brobot-cli.jar", java_executable := "java", default_timeout := 30 }
        [] none = .ok { success := true, output := "out", error := none } ∧
    run_command (fun _ _ => ProcOutcome.completed 1 "out" "boom")
        { jar_path := "brobot-cli.jar", java_executable := "java", default_timeout := 30 }
        [] none = .ok { success := false, output := "out", error := some "boom" } ∧
    ∃ m, ({ success := false, output := "out", error := some "boom" } : CommandResult).error =
      some m := by
  have h0 := C6_command_result_population
    { jar_path := "brobot-cli.jar", java_executable := "java", default_timeout := 30 }
    [] none 0 "out" ""
  have h1 := C6_command_result_population
    { jar_path := "brobot-cli.jar", java_executable := "java", default_timeout := 30 }
    [] none 1 "out" "boom"
  have hb : run_command (fun _ _ => ProcOutcome.completed 1 "out" "boom")
      { jar_path := "brobot-cli.jar", java_executable := "java", default_timeout := 30 }
      [] none = .ok { success := false, output := "out", error := some "boom" } := by
    simpa using h1.2.1 (by decide)
  exact ⟨h0.1 rfl, hb, h1.2.2 _ _ hb rfl⟩

/-- C7: when the process exits 0 but stdout fails to parse, each of the
three bridge operations raises `BrobotCLIError` carrying the decode
diagnostic, and never returns a document. -/
theorem C7_malformed_response_raises :
    ∀ {D : Type} (parse : String → Except String D) (cfg : CLIConfig)
      (out emsg : String) (req : ActionRequest),
      parse out = .error emsg →
      (get_state_structure parse (fun _ _ => ProcOutcome.completed 0 out "") cfg =
         .error ⟨"Invalid JSON response from CLI: " ++ emsg⟩ ∧
       ∀ d, get_state_structure parse (fun _ _ => ProcOutcome.completed 0 out "") cfg ≠
         .ok d) ∧
      (get_observation parse (fun _ _ => ProcOutcome.completed 0 out "") cfg =
         .error ⟨"Invalid JSON response from CLI: " ++ emsg⟩ ∧
       ∀ d, get_observation parse (fun _ _ => ProcOutcome.completed 0 out "") cfg ≠
         .ok d) ∧
      (execute_action parse (fun _ _ => ProcOutcome.completed 0 out "") cfg req =
         .error ⟨"Invalid JSON response from CLI: " ++ emsg⟩ ∧
       ∀ d, execute_action parse (fun _ _ => ProcOutcome.completed 0 out "") cfg req ≠
         .ok d) := by
  intro D parse cfg out emsg req hparse
  have hs : get_state_structure parse (fun _ _ => ProcOutcome.completed 0 out "") cfg =
      .error ⟨"Invalid JSON response from CLI: " ++ emsg⟩ := by
    simp [get_state_structure, run_command, hparse]
  have ho : get_observation parse (fun _ _ => ProcOutcome.completed 0 out "") cfg =
      .error ⟨"Invalid JSON response from CLI: " ++ emsg⟩ := by
    simp [get_observation, run_command, hparse]
  have he : execute_action parse (fun _ _ => ProcOutcome.completed 0 out "") cfg req =
      .error ⟨"Invalid JSON response from CLI: " ++ emsg⟩ := by
    simp [execute_action, run_command, hparse]
  refine ⟨⟨hs, ?_⟩, ⟨ho, ?_⟩, ⟨he, ?_⟩⟩ <;> intro d h
  · rw [hs] at h; exact Except.noConfusion h
  · rw [ho] at h; exact Except.noConfusion h
  · rw [he] at h; exact Except.noConfusion h

/-- Witness for C7: a parser rejecting the concrete stdout `"notjson"`
makes `get_state_structure` raise the diagnostic error. -/
theorem C7_malformed_response_raises_witness :
    get_state_structure (fun _ => Except.error "Expecting value" : String → Except String Unit)
        (fun _ _ => ProcOutcome.completed 0 "notjson" "")
        { jar_path := "brobot-cli.jar", java_executable := "java", default_timeout := 30 } =
      .error ⟨"Invalid JSON response from CLI: " ++ "Expecting value"⟩ :=
  (C7_malformed_response_raises (fun _ => Except.error "Expecting value")
    { jar_path := "brobot-cli.jar", java_executable := "java", default_timeout := 30 }
    "notjson" "Expecting value" { payload := "p", timeout := none } rfl).1.1

/-- C8: a jar path absent from the filesystem makes bridge initialization
fail before any operation exists, and any successfully constructed bridge
binds a jar path that existed at construction time. -/
theorem C8_missing_executable_fails_construction :
    ∀ (fs : List String) (proc : ProcEnv) (jar java : String),
      (jar ∉ fs → initialize_bridge fs proc jar java =
        .error ("Brobot CLI JAR not found at: " ++ jar)) ∧
      (∀ b, initialize_bridge fs proc jar java = .ok b → b.config.jar_path ∈ fs) := by
  intro fs proc jar java
  constructor
  · intro h
    simp [initialize_bridge, CLIConfig.post_init, h]
  · intro b hb
    simp only [initialize_bridge, CLIConfig.post_init] at hb
    by_cases h : jar ∈ fs
    · rw [if_pos h] at hb
      simp only [BrobotBridge.init] at hb
      cases hr : run_command proc
          { jar_path := jar, java_executable := java, default_timeout := 30 }
          ["--version"] (some 5) with
      | ok r =>
        rw [hr] at hb
        cases hb
        exact h
      | error e =>
        rw [hr] at hb
        exact absurd hb (by simp)
    · rw [if_neg h] at hb
      exact absurd hb (by simp)

/-- Witness for C8: a missing jar fails construction; an existing jar with
a responsive executable yields a bridge bound to that jar. -/
theorem C8_missing_executable_fails_construction_witness :
    initialize_bridge ["other.jar"] (fun _ _ => ProcOutcome.completed 0 "v1" "")
        "missing.jar" "java" = .error ("Brobot CLI JAR not found at: " ++ "missing.jar") ∧
    (initialize_bridge ["brobot-cli.jar"] (fun _ _ => ProcOutcome.completed 0 "v1" "")
        "brobot-cli.jar" "java" =
      .ok { config := { jar_path := "brobot-cli.jar", java_executable := "java",
                        default_timeout := 30 } } →
      ("brobot-cli.jar" :
        String) ∈ ["brobot-cli.jar"]) := by
  constructor
  · exact (C8_missing_executable_fails_construction ["other.jar"]
      (fun _ _ => ProcOutcome.completed 0 "v1" "") "missing.jar" "java").1 (by decide)
  · intro hb
    exact (C8_missing_executable_fails_construction ["brobot-cli.jar"]
      (fun _ _ => ProcOutcome.completed 0 "v1" "") "brobot-cli.jar" "java").2 _ hb
